import Mathlib

/-!
Verification of the polychat-ipc plugin host runtime against its design
specification.

Modelling conventions (shallow embedding of the Rust sources):

* JSON text transported between host and plugins is modelled by the `Json`
  AST below.  `serde_json::to_string` is modelled by the compact printer
  `printJson` (same escaping rules and field order as serde_json), and
  `serde_json::from_str` by AST-level decoding functions; the pairing of
  serde_json's text printer and parser is modelled as the identity on the
  AST, which is serde_json's documented contract for well-formed values.
* A `serde_json::value::RawValue` (a retained, not-yet-decoded payload) is
  modelled as the retained `Json` sub-value; its `get()` text is the
  compact serialization `printJson` of that value.
* Machine integers (`i32`, `u64`) are modelled as subtypes of `Int` / `Nat`
  carrying the range bound of the Rust type.
* Stateful and effectful operations (socket writes, handler callbacks,
  process teardown, directory enumeration) are modelled by explicit state
  passing and by returning the trace of observable actions.
-/

/-- JSON values, mirroring `serde_json::Value` as used by this repository
(the schemas only produce null, booleans, integers, strings, arrays and
objects; field order in objects is the declaration order of the serde
derive, so objects are association lists). -/
inductive Json where
  | null : Json
  | bool : Bool → Json
  | num : Int → Json
  | str : String → Json
  | arr : List Json → Json
  | obj : List (String × Json) → Json

/-- Lowercase hex digit, as in serde_json's escape table. -/
def hexDigit (n : Nat) : Char :=
  "0123456789abcdef".data.getD n '0'

/-- Escaping of a single character inside a JSON string literal, following
serde_json's serializer: quote and backslash are escaped, the control
characters BS/TAB/LF/FF/CR get their two-character escapes, the remaining
control characters get a `\u00XX` escape, and everything else is written
verbatim. -/
def escapeChar (c : Char) : String :=
  if c = '"' then "\\\""
  else if c = '\\' then "\\\\"
  else if c = '\x08' then "\\b"
  else if c = '\x09' then "\\t"
  else if c = '\x0a' then "\\n"
  else if c = '\x0c' then "\\f"
  else if c = '\x0d' then "\\r"
  else if c.toNat < 0x20 then
    "\\u00" ++ String.singleton (hexDigit (c.toNat / 16))
            ++ String.singleton (hexDigit (c.toNat % 16))
  else String.singleton c

/-- serde_json's serialization of a string, with surrounding quotes. -/
def printJsonString (s : String) : String :=
  "\"" ++ String.join (s.data.map escapeChar) ++ "\""

mutual

/-- Compact serialization of a JSON value, mirroring
`serde_json::to_string` (no added whitespace, lowercase escapes, decimal
integers). -/
def printJson : Json → String
  | .null => "null"
  | .bool true => "true"
  | .bool false => "false"
  | .num n => toString n
  | .str s => printJsonString s
  | .arr xs => "[" ++ printJsonArr xs ++ "]"
  | .obj fs => "\x7b" ++ printJsonObj fs ++ "\x7d"

/-- Comma-separated serialization of array elements. -/
def printJsonArr : List Json → String
  | [] => ""
  | [x] => printJson x
  | x :: xs => printJson x ++ "," ++ printJsonArr xs

/-- Comma-separated serialization of object members. -/
def printJsonObj : List (String × Json) → String
  | [] => ""
  | [(k, v)] => printJsonString k ++ ":" ++ printJson v
  | (k, v) :: fs => printJsonString k ++ ":" ++ printJson v ++ "," ++ printJsonObj fs

end

/-- First value bound to a key in a JSON object, as the derived serde
deserializers look fields up. -/
def jsonLookup (fields : List (String × Json)) (key : String) : Option Json :=
  match fields with
  | [] => none
  | (k, v) :: rest => if k = key then some v else jsonLookup rest key

/-- The Rust `i32` type: an integer in `[-2^31, 2^31)`.  Field values of
this type in the schemas are always in range by construction in Rust. -/
def i32 := {n : Int // -(2 ^ 31) ≤ n ∧ n < 2 ^ 31}

/-- The Rust `u64` type: a natural number below `2^64`. -/
def u64 := {n : Nat // n < 2 ^ 64}

/-- src/api/schema/instructions.rs: every instruction kind that can be
sent from the plugin to the core (`CoreInstructionType`). -/
inductive CoreInstructionType where
  | Init : CoreInstructionType
  | KeepaliveResponse : CoreInstructionType
  | AuthAccountResponse : CoreInstructionType
deriving DecidableEq, Repr

/-- src/api/schema/instructions.rs: every instruction kind that can be
sent from the core to the plugin (`PluginInstructionType`). -/
inductive PluginInstructionType where
  | Keepalive : PluginInstructionType
  | AuthAccount : PluginInstructionType
deriving DecidableEq, Repr

/-- Derived `Serialize` on `CoreInstructionType`: a unit enum variant
serializes to its bare variant name as a JSON string. -/
def CoreInstructionType.toJson : CoreInstructionType → Json
  | .Init => .str "Init"
  | .KeepaliveResponse => .str "KeepaliveResponse"
  | .AuthAccountResponse => .str "AuthAccountResponse"

/-- Derived `Deserialize` on `CoreInstructionType`: only the three bare
variant names are accepted; anything else is a decode error. -/
def coreInstructionTypeFromJson : Json → Except String CoreInstructionType
  | .str "Init" => .ok .Init
  | .str "KeepaliveResponse" => .ok .KeepaliveResponse
  | .str "AuthAccountResponse" => .ok .AuthAccountResponse
  | _ => .error "unknown variant of CoreInstructionType"

/-- src/api/schema/instructions.rs: `SerializableCoreInstr<P>`, an
instruction to be sent from plugin to core, generic in the payload type. -/
structure SerializableCoreInstr (P : Type) where
  instruction_type : CoreInstructionType
  payload : P

/-- src/api/schema/instructions.rs: `SerializablePluginInstr<P>`, an
instruction to be sent from core to plugin. -/
structure SerializablePluginInstr (P : Type) where
  instruction_type : PluginInstructionType
  payload : P

/-- src/api/schema/instructions.rs: `DeserializableCoreInstr`, an
instruction received from a plugin.  The `payload` field is a
`Box<RawValue>`: the payload is retained as an undecoded JSON value
(modelled as the retained `Json` sub-tree). -/
structure DeserializableCoreInstr where
  instruction_type : CoreInstructionType
  payload : Json

/-- The Rust `Serialize` bound of the payload parameter `P`, modelled as a
serialization function to a JSON tree that may fail (a `Serialize`
implementation may return an error, e.g. serde_json rejects maps with
non-string keys).  `serde_json::to_string(&p)` is then
`printJson <$> ser p`. -/
def serToStr {P : Type} (ser : P → Except String Json) (p : P) : Except String String :=
  match ser p with
  | .ok j => .ok (printJson j)
  | .error e => .error e

/-- src/api/schema/instructions.rs, `impl PartialEq for
SerializableCoreInstr`: serialize both payloads with
`serde_json::to_string`; if either serialization errors the result is
`false`; otherwise the envelopes are equal iff the instruction types are
equal and the serialized payload strings are equal. -/
def serializableCoreInstrEq {P : Type} (ser : P → Except String Json)
    (a b : SerializableCoreInstr P) : Bool :=
  match serToStr ser a.payload, serToStr ser b.payload with
  | .ok s1, .ok s2 =>
      decide (a.instruction_type = b.instruction_type) && decide (s1 = s2)
  | _, _ => false

/-- src/api/schema/instructions.rs, `impl PartialEq for
SerializablePluginInstr`: same algorithm as the core-bound instance. -/
def serializablePluginInstrEq {P : Type} (ser : P → Except String Json)
    (a b : SerializablePluginInstr P) : Bool :=
  match serToStr ser a.payload, serToStr ser b.payload with
  | .ok s1, .ok s2 =>
      decide (a.instruction_type = b.instruction_type) && decide (s1 = s2)
  | _, _ => false

/-- Derived `Serialize` on `SerializableCoreInstr<P>` given the payload's
already-produced JSON value: a two-member object, fields in declaration
order (`instruction_type`, then `payload`). -/
def serializableCoreInstrToJson (t : CoreInstructionType) (payloadJson : Json) : Json :=
  .obj [("instruction_type", t.toJson), ("payload", payloadJson)]

/-- Derived `Deserialize` on `DeserializableCoreInstr`: expects a JSON
object, requires both fields, decodes `instruction_type` as a
`CoreInstructionType` and retains `payload` verbatim as a `RawValue`. -/
def deserializableCoreInstrFromJson (j : Json) : Except String DeserializableCoreInstr :=
  match j with
  | .obj fields =>
      match jsonLookup fields "instruction_type", jsonLookup fields "payload" with
      | some tj, some pj =>
          match coreInstructionTypeFromJson tj with
          | .ok t => .ok ⟨t, pj⟩
          | .error e => .error e
      | none, _ => .error "missing field instruction_type"
      | _, none => .error "missing field payload"
  | _ => .error "expected a JSON object"

/-- src/api/schema/protocol.rs: `Version { major, minor, patch : i32 }`. -/
structure Version where
  major : i32
  minor : i32
  patch : i32

/-- src/api/schema/auth.rs: `FieldType`, for input validation. -/
inductive FieldType where
  | Integer : FieldType
  | String : FieldType
  | Url : FieldType
deriving DecidableEq, Repr

/-- src/api/schema/auth.rs: `Field`, a field in a login method (named
`AuthField` here because `Field` is taken by Mathlib's algebra class). -/
structure AuthField where
  name : String
  field_type : FieldType
  value : Option String
  required : Bool
  sensitive : Bool

/-- src/api/schema/auth.rs: `AuthMethod`, a way the user may log in. -/
structure AuthMethod where
  name : String
  fields : List AuthField

/-- src/api/schema/protocol.rs: `ProtocolData`. -/
structure ProtocolData where
  protocol_service_name : String
  auth_methods : List AuthMethod

/-- src/api/schema/protocol.rs: `InitDataInstruction`, the data sent from
the plugin to the core once it is initialized. -/
structure InitDataInstruction where
  api_version : Version
  plugin_version : Version
  protocol_data : ProtocolData

/-- src/api/schema/keepalive.rs: `KeepaliveInstruction { id : u64 }`. -/
structure KeepaliveInstruction where
  id : u64

/-- src/api/schema/auth.rs: `AuthResult`, the possible auth outcomes. -/
inductive AuthResult where
  | Success : AuthResult
  | FailRejected : AuthResult
  | FailConnectionError : AuthResult
  | Connecting : AuthResult
deriving DecidableEq, Repr

/-- src/api/schema/auth.rs: `AuthAccountResponse { result, details }`. -/
structure AuthAccountResponse where
  result : AuthResult
  details : String

/-- Derived `Serialize` on `Version` (fields in declaration order). -/
def Version.toJson (v : Version) : Json :=
  .obj [("major", .num v.major.val), ("minor", .num v.minor.val),
        ("patch", .num v.patch.val)]

/-- Derived `Serialize` on `FieldType` (bare variant name). -/
def FieldType.toJson : FieldType → Json
  | .Integer => .str "Integer"
  | .String => .str "String"
  | .Url => .str "Url"

/-- Derived `Serialize` on `Field`; an `Option<String>` serializes to the
string or to `null`. -/
def AuthField.toJson (f : AuthField) : Json :=
  .obj [("name", .str f.name), ("field_type", f.field_type.toJson),
        ("value", match f.value with | some s => .str s | none => .null),
        ("required", .bool f.required), ("sensitive", .bool f.sensitive)]

/-- Derived `Serialize` on `AuthMethod`. -/
def AuthMethod.toJson (m : AuthMethod) : Json :=
  .obj [("name", .str m.name), ("fields", .arr (m.fields.map AuthField.toJson))]

/-- Derived `Serialize` on `ProtocolData`. -/
def ProtocolData.toJson (d : ProtocolData) : Json :=
  .obj [("protocol_service_name", .str d.protocol_service_name),
        ("auth_methods", .arr (d.auth_methods.map AuthMethod.toJson))]

/-- Derived `Serialize` on `InitDataInstruction`. -/
def InitDataInstruction.toJson (d : InitDataInstruction) : Json :=
  .obj [("api_version", d.api_version.toJson),
        ("plugin_version", d.plugin_version.toJson),
        ("protocol_data", d.protocol_data.toJson)]

/-- Derived `Serialize` on `KeepaliveInstruction`. -/
def KeepaliveInstruction.toJson (k : KeepaliveInstruction) : Json :=
  .obj [("id", .num (Int.ofNat k.id.val))]

/-- Derived `Serialize` on `AuthResult` (bare variant name). -/
def AuthResult.toJson : AuthResult → Json
  | .Success => .str "Success"
  | .FailRejected => .str "FailRejected"
  | .FailConnectionError => .str "FailConnectionError"
  | .Connecting => .str "Connecting"

/-- Derived `Serialize` on `AuthAccountResponse`. -/
def AuthAccountResponse.toJson (r : AuthAccountResponse) : Json :=
  .obj [("result", r.result.toJson), ("details", .str r.details)]

/-- serde deserialization of an `i32` from a JSON value: an integer in the
range of the Rust type, otherwise a decode error. -/
def i32FromJson (j : Json) : Except String i32 :=
  match j with
  | .num n =>
      if h : -(2 ^ 31) ≤ n ∧ n < 2 ^ 31 then .ok ⟨n, h⟩
      else .error "integer out of range for i32"
  | _ => .error "expected an integer"

/-- serde deserialization of a `u64` from a JSON value. -/
def u64FromJson (j : Json) : Except String u64 :=
  match j with
  | .num n =>
      if h : 0 ≤ n ∧ n < 2 ^ 64 then .ok ⟨n.toNat, by omega⟩
      else .error "integer out of range for u64"
  | _ => .error "expected an integer"

/-- serde deserialization of a `String` from a JSON value. -/
def stringFromJson (j : Json) : Except String String :=
  match j with
  | .str s => .ok s
  | _ => .error "expected a string"

/-- serde deserialization of a `bool` from a JSON value. -/
def boolFromJson (j : Json) : Except String Bool :=
  match j with
  | .bool b => .ok b
  | _ => .error "expected a boolean"

/-- Required field of a derived struct deserializer: the field must be
present (unknown extra fields are ignored by serde's default). -/
def requiredField (fields : List (String × Json)) (key : String)
    (dec : Json → Except String α) : Except String α :=
  match jsonLookup fields key with
  | some j => dec j
  | none => .error ("missing field " ++ key)

/-- Derived `Deserialize` on `Version`. -/
def versionFromJson (j : Json) : Except String Version :=
  match j with
  | .obj fs => do
      let major ← requiredField fs "major" i32FromJson
      let minor ← requiredField fs "minor" i32FromJson
      let patch ← requiredField fs "patch" i32FromJson
      .ok ⟨major, minor, patch⟩
  | _ => .error "expected an object for Version"

/-- Derived `Deserialize` on `FieldType`. -/
def fieldTypeFromJson (j : Json) : Except String FieldType :=
  match j with
  | .str "Integer" => .ok .Integer
  | .str "String" => .ok .String
  | .str "Url" => .ok .Url
  | _ => .error "unknown variant of FieldType"

/-- serde deserialization of an `Option<String>`: `null` is `None`, a
string is `Some`. -/
def optionStringFromJson (j : Json) : Except String (Option String) :=
  match j with
  | .null => .ok none
  | .str s => .ok (some s)
  | _ => .error "expected a string or null"

/-- Derived `Deserialize` on `Field`: a missing `value` field decodes to
`None` (serde's `missing_field` succeeds for `Option` fields). -/
def authFieldFromJson (j : Json) : Except String AuthField :=
  match j with
  | .obj fs => do
      let name ← requiredField fs "name" stringFromJson
      let ftype ← requiredField fs "field_type" fieldTypeFromJson
      let value ← match jsonLookup fs "value" with
        | some vj => optionStringFromJson vj
        | none => .ok none
      let required ← requiredField fs "required" boolFromJson
      let sensitive ← requiredField fs "sensitive" boolFromJson
      .ok ⟨name, ftype, value, required, sensitive⟩
  | _ => .error "expected an object for Field"

/-- serde deserialization of a `Vec<T>` element-wise from a JSON array. -/
def listFromJson (dec : Json → Except String α) : List Json → Except String (List α)
  | [] => .ok []
  | j :: rest => do
      let x ← dec j
      let xs ← listFromJson dec rest
      .ok (x :: xs)

/-- Derived `Deserialize` on `AuthMethod`. -/
def authMethodFromJson (j : Json) : Except String AuthMethod :=
  match j with
  | .obj fs => do
      let name ← requiredField fs "name" stringFromJson
      let fields ← requiredField fs "fields" (fun v =>
        match v with
        | .arr xs => listFromJson authFieldFromJson xs
        | _ => .error "expected an array")
      .ok ⟨name, fields⟩
  | _ => .error "expected an object for AuthMethod"

/-- Derived `Deserialize` on `ProtocolData`. -/
def protocolDataFromJson (j : Json) : Except String ProtocolData :=
  match j with
  | .obj fs => do
      let name ← requiredField fs "protocol_service_name" stringFromJson
      let methods ← requiredField fs "auth_methods" (fun v =>
        match v with
        | .arr xs => listFromJson authMethodFromJson xs
        | _ => .error "expected an array")
      .ok ⟨name, methods⟩
  | _ => .error "expected an object for ProtocolData"

/-- Derived `Deserialize` on `InitDataInstruction`. -/
def initDataInstructionFromJson (j : Json) : Except String InitDataInstruction :=
  match j with
  | .obj fs => do
      let api ← requiredField fs "api_version" versionFromJson
      let plugin ← requiredField fs "plugin_version" versionFromJson
      let proto ← requiredField fs "protocol_data" protocolDataFromJson
      .ok ⟨api, plugin, proto⟩
  | _ => .error "expected an object for InitDataInstruction"

/-- Derived `Deserialize` on `KeepaliveInstruction`. -/
def keepaliveInstructionFromJson (j : Json) : Except String KeepaliveInstruction :=
  match j with
  | .obj fs => do
      let id ← requiredField fs "id" u64FromJson
      .ok ⟨id⟩
  | _ => .error "expected an object for KeepaliveInstruction"

/-- Derived `Deserialize` on `AuthResult`. -/
def authResultFromJson (j : Json) : Except String AuthResult :=
  match j with
  | .str "Success" => .ok .Success
  | .str "FailRejected" => .ok .FailRejected
  | .str "FailConnectionError" => .ok .FailConnectionError
  | .str "Connecting" => .ok .Connecting
  | _ => .error "unknown variant of AuthResult"

/-- Derived `Deserialize` on `AuthAccountResponse`. -/
def authAccountResponseFromJson (j : Json) : Except String AuthAccountResponse :=
  match j with
  | .obj fs => do
      let result ← requiredField fs "result" authResultFromJson
      let details ← requiredField fs "details" stringFromJson
      .ok ⟨result, details⟩
  | _ => .error "expected an object for AuthAccountResponse"

/-- The inner schema each core-bound instruction kind carries (spec §3 and
the dispatcher in src/api/core_instruction_handler.rs). -/
def CorePayloadType : CoreInstructionType → Type
  | .Init => InitDataInstruction
  | .KeepaliveResponse => KeepaliveInstruction
  | .AuthAccountResponse => AuthAccountResponse

/-- Serialization of a kind's inner payload by its schema's derived
`Serialize`. -/
def corePayloadToJson : (k : CoreInstructionType) → CorePayloadType k → Json
  | .Init, p => InitDataInstruction.toJson p
  | .KeepaliveResponse, p => KeepaliveInstruction.toJson p
  | .AuthAccountResponse, p => AuthAccountResponse.toJson p

/-- src/api/schema/instructions.rs, `impl From<DeserializableCoreInstr>
for SerializableCoreInstr<Box<RawValue>>`: repack the fields; the payload
stays the retained raw JSON value. -/
def serializableCoreInstrOfDeserializable (d : DeserializableCoreInstr) :
    SerializableCoreInstr Json :=
  ⟨d.instruction_type, d.payload⟩

/-- The `Serialize` implementation of `Box<RawValue>`: it re-emits the
retained JSON verbatim and never fails. -/
def rawValueSer : Json → Except String Json := fun j => .ok j

/-- C1: encoding a core-bound envelope built from a valid kind `K` and a
payload of `K`'s inner schema and then decoding it yields an envelope with
the same `instruction_type` and a retained payload whose serialization is
byte-equal to the original payload's serialization; in particular the
decoded envelope is equal to the original under the code's envelope
equality (equal discriminator and byte-equal payload serialization). -/
theorem core_envelope_round_trip (k : CoreInstructionType) (p : CorePayloadType k) :
    ∃ d : DeserializableCoreInstr,
      deserializableCoreInstrFromJson
          (serializableCoreInstrToJson k (corePayloadToJson k p)) = Except.ok d ∧
      d.instruction_type = k ∧
      printJson d.payload = printJson (corePayloadToJson k p) ∧
      serializableCoreInstrEq rawValueSer
          ⟨k, corePayloadToJson k p⟩ (serializableCoreInstrOfDeserializable d) = true := by
  refine ⟨⟨k, corePayloadToJson k p⟩, ?_, rfl, rfl, ?_⟩
  · cases k <;> rfl
  · simp [serializableCoreInstrEq, serToStr, rawValueSer,
      serializableCoreInstrOfDeserializable]

/-- One invocation of a `CoreInstructionHandler` callback
(src/api/core_instruction_handler.rs): the handler trait has exactly the
three methods `on_init`, `on_keepalive_response`,
`on_auth_account_response`. -/
inductive HandlerCall where
  | on_init : InitDataInstruction → HandlerCall
  | on_keepalive_response : KeepaliveInstruction → HandlerCall
  | on_auth_account_response : AuthAccountResponse → HandlerCall

/-- src/api/core_instruction_handler.rs, `call_core_handler`: match on the
envelope's `instruction_type`, parse the retained payload into the
kind-specific schema; on success invoke the matching callback and return
`Ok(())`, on failure return the decode error.  The returned list is the
trace of handler callbacks invoked. -/
def call_core_handler (instr : DeserializableCoreInstr) :
    Except String Unit × List HandlerCall :=
  match instr.instruction_type with
  | .Init =>
      match initDataInstructionFromJson instr.payload with
      | .ok data => (.ok (), [.on_init data])
      | .error e => (.error e, [])
  | .AuthAccountResponse =>
      match authAccountResponseFromJson instr.payload with
      | .ok data => (.ok (), [.on_auth_account_response data])
      | .error e => (.error e, [])
  | .KeepaliveResponse =>
      match keepaliveInstructionFromJson instr.payload with
      | .ok data => (.ok (), [.on_keepalive_response data])
      | .error e => (.error e, [])

/-- Modelled from the spec (§4.4 dispatch layer): parse the retained
payload bytes into the schema determined by the kind and name the matching
handler callback; a parse failure is a decode error. -/
def dispatchSpec (t : CoreInstructionType) (payload : Json) :
    Except String HandlerCall :=
  match t with
  | .Init =>
      match initDataInstructionFromJson payload with
      | .ok d => .ok (.on_init d)
      | .error e => .error e
  | .KeepaliveResponse =>
      match keepaliveInstructionFromJson payload with
      | .ok d => .ok (.on_keepalive_response d)
      | .error e => .error e
  | .AuthAccountResponse =>
      match authAccountResponseFromJson payload with
      | .ok d => .ok (.on_auth_account_response d)
      | .error e => .error e

/-- C2: for every decoded core-bound envelope, `call_core_handler` parses
the retained payload into the kind-specific schema; if the parse succeeds
it invokes exactly the matching handler callback exactly once and returns
success, and if the parse fails it returns the decode error and invokes no
callback at all. -/
theorem call_core_handler_dispatch (instr : DeserializableCoreInstr) :
    call_core_handler instr =
      match dispatchSpec instr.instruction_type instr.payload with
      | .ok c => (Except.ok (), [c])
      | .error e => (Except.error e, []) := by
  obtain ⟨t, payload⟩ := instr
  cases t <;> simp only [call_core_handler, dispatchSpec] <;>
    first
    | cases initDataInstructionFromJson payload <;> rfl
    | cases keepaliveInstructionFromJson payload <;> rfl
    | cases authAccountResponseFromJson payload <;> rfl

/-- State of a socket write half: the bytes written so far and the number
of explicit `flush` calls issued. -/
structure WriterState where
  written : String
  flushCount : Nat
deriving DecidableEq, Repr

/-- `futures::AsyncWriteExt::write_all` on the write half: appends the
bytes to the stream; `write_all` itself performs no flush. -/
def write_all (s : String) (w : WriterState) : WriterState :=
  { w with written := w.written ++ s }

/-- An explicit `flush` call on the write half. -/
def flushWriter (w : WriterState) : WriterState :=
  { w with flushCount := w.flushCount + 1 }

/-- src/utils/socket.rs, `send_str_over_ipc`: builds
`payload = format!("\x7b\x7d\n", msg)` and calls `ipc.write_all(payload)`;
on success it returns `Ok(())`.  The function body contains no flush call
(the write-error branch, which merely propagates the error string, is the
unmodelled failure path). -/
def send_str_over_ipc (msg : String) (ipc : WriterState) :
    WriterState × Except String Unit :=
  (write_all (msg ++ "\n") ipc, .ok ())

/-- `futures::AsyncBufReadExt::read_line`: appends bytes from the stream
up to **and including** the first newline (or up to EOF). -/
def readLineChars : List Char → List Char
  | [] => []
  | c :: rest => if c = '\n' then [c] else c :: readLineChars rest

/-- src/utils/socket.rs, `receive_line`: wraps the read half in a
`BufReader`, calls `read_line` into a fresh string and returns that string
unmodified — no terminator is stripped (the read-error branch, which
propagates the error string, is the unmodelled failure path). -/
def receive_line (wire : String) : Except String String :=
  .ok (String.mk (readLineChars wire.data))

/-- Reading a line of a wire that holds `s ++ "\n" ++ rest`, where `s` is
newline-free, consumes `s` **and** the terminator. -/
theorem readLineChars_append (s rest : List Char) (h : '\n' ∉ s) :
    readLineChars (s ++ '\n' :: rest) = s ++ ['\n'] := by
  induction s with
  | nil => simp [readLineChars]
  | cons c cs ih =>
      rw [List.mem_cons, not_or] at h
      have hc : ¬c = '\n' := fun hc => h.1 hc.symm
      simp only [List.cons_append, readLineChars, if_neg hc]
      simp [ih h.2]

/-- C3 counterexample: the claim fails on the wire line `"42\n"` — the
send path issues no flush after writing, and the receive path hands the
decoder `"42\n"`, not `"42"`. -/
theorem send_recv_framing_refuted :
    ¬ (0 < ((send_str_over_ipc "42" ⟨"", 0⟩).1).flushCount ∧
       receive_line "42\n" = Except.ok "42") := by
  intro h
  have h1 := h.1
  simp only [send_str_over_ipc, write_all] at h1
  exact absurd h1 (by decide)

/-- C3 (amended): the send path writes `serialize(envelope) + "\n"` to
the stream and issues no flush; the receive path reads exactly one line
including the trailing newline and returns it unstripped, so the decoder
input for a wire line `s ++ "\n"` is `s ++ "\n"`. -/
theorem send_recv_framing (msg : String) (w : WriterState)
    (s rest : String) (hs : '\n' ∉ s.data) :
    send_str_over_ipc msg w =
      ({ written := w.written ++ (msg ++ "\n"), flushCount := w.flushCount },
       Except.ok ()) ∧
    receive_line (s ++ "\n" ++ rest) = Except.ok (s ++ "\n") := by
  constructor
  · rfl
  · have hdata : (s ++ "\n" ++ rest).data = s.data ++ '\n' :: rest.data := by
      simp [String.data_append]
    have hline : (s ++ "\n").data = s.data ++ ['\n'] := by
      simp [String.data_append]
    simp only [receive_line, hdata, readLineChars_append s.data rest.data hs]
    rw [← hline]

/-- C3 (amended) witness at `msg = s = "42"`. -/
theorem send_recv_framing_witness :
    send_str_over_ipc "42" ⟨"", 0⟩ =
      ({ written := "42\n", flushCount := 0 }, Except.ok ()) ∧
    receive_line "42\n" = Except.ok "42\n" := by
  have h := send_recv_framing "42" ⟨"", 0⟩ "42" "" (by decide)
  simpa using h

/-- Outcome of the lock-and-receive phase of one iteration of
`fetch_message_loop` (src/process_management/process.rs): the 16 ms lock
acquisition may time out, the 16 ms `get_instruction` may time out or
error (both merely logged), or an envelope is received and staged. -/
inductive RecvOutcome where
  | lockTimeout : RecvOutcome
  | recvTimeout : RecvOutcome
  | recvError : String → RecvOutcome
  | recvOk : DeserializableCoreInstr → RecvOutcome

/-- Outcome of `timeout(16ms, tx.send(head))` on the shared queue:
`timedOut` is `Err(Elapsed)`, `sent` is `Ok(Ok(()))`, and `closed` is
`Ok(Err(SendError))` — the receiving side of the channel is gone, so
`send` returns immediately with an error inside the `Ok` of `timeout`. -/
inductive SendOutcome where
  | timedOut : SendOutcome
  | sent : SendOutcome
  | closed : SendOutcome
deriving DecidableEq, Repr

/-- Whether the loop body falls through to the next iteration or exits. -/
inductive LoopControl where
  | next : LoopControl
  | exit : LoopControl
deriving DecidableEq, Repr

/-- Observable result of one fetch-loop iteration: the staging buffer
afterwards, the envelope offered to the shared queue (if any), and the
loop control. -/
structure FetchIterResult where
  msg_buffer : List DeserializableCoreInstr
  offered : Option DeserializableCoreInstr
  control : LoopControl

/-- The staging buffer after the receive phase: a received envelope is
pushed onto `msg_buffer`; every other outcome leaves it unchanged. -/
def stagedBuffer (recv : RecvOutcome) (msg_buffer : List DeserializableCoreInstr) :
    List DeserializableCoreInstr :=
  match recv with
  | .recvOk d => msg_buffer ++ [d]
  | _ => msg_buffer

/-- src/process_management/process.rs, one iteration of the `loop` body of
`fetch_message_loop`: after the receive phase, if the staging buffer is
non-empty the head (`msg_buffer.get(0)`) is offered to the shared queue
with a 16 ms timeout.  The `Err(_)` arm of the match (the timeout) only
logs and retains the head; the wildcard arm — which covers **both**
`Ok(Ok(()))` and the channel-closed `Ok(Err(SendError))` — removes the
head (`msg_buffer.remove(0)`).  The `loop` contains no `break` or
`return`, so control always falls through to the next iteration. -/
def fetch_message_iteration (recv : RecvOutcome) (send : SendOutcome)
    (msg_buffer : List DeserializableCoreInstr) : FetchIterResult :=
  match stagedBuffer recv msg_buffer with
  | [] => ⟨[], none, .next⟩
  | head :: tail =>
      match send with
      | .timedOut => ⟨head :: tail, some head, .next⟩
      | _ => ⟨tail, some head, .next⟩

/-- C4 counterexample: with a non-empty buffer and the shared queue's
receiving side closed, the iteration does **not** exit the loop — the
channel-closed send error falls into the wildcard arm, the head is
removed, and the loop continues. -/
theorem fetch_loop_closed_exit_refuted :
    ¬ ((fetch_message_iteration .recvTimeout .closed
          [⟨.Init, .obj []⟩]).control = .exit) ∧
    (fetch_message_iteration .recvTimeout .closed
        [⟨.Init, .obj []⟩]).msg_buffer = [] := by
  constructor
  · intro h
    simp [fetch_message_iteration, stagedBuffer] at h
  · rfl

/-- C4 (amended): in every iteration with a non-empty staging buffer the
head envelope is offered to the shared queue under the 16 ms timeout; on
successful send the head is removed, on send timeout it is retained, and
on channel-closed the send error is swallowed like a success — the head
is removed and the loop continues.  The loop body never exits on its own
(the task ends only by external abort). -/
theorem fetch_message_iteration_spec (recv : RecvOutcome) (send : SendOutcome)
    (msg_buffer : List DeserializableCoreInstr)
    (head : DeserializableCoreInstr) (tail : List DeserializableCoreInstr)
    (h : stagedBuffer recv msg_buffer = head :: tail) :
    (fetch_message_iteration recv send msg_buffer).offered = some head ∧
    (fetch_message_iteration recv send msg_buffer).msg_buffer =
      (match send with
       | .timedOut => head :: tail
       | _ => tail) ∧
    (∀ (r : RecvOutcome) (s : SendOutcome)
        (b : List DeserializableCoreInstr),
      (fetch_message_iteration r s b).control = .next) := by
  refine ⟨?_, ?_, ?_⟩
  · unfold fetch_message_iteration
    rw [h]
    cases send <;> rfl
  · unfold fetch_message_iteration
    rw [h]
    cases send <;> rfl
  · intro r s b
    unfold fetch_message_iteration
    cases hb : stagedBuffer r b with
    | nil => rfl
    | cons x xs => cases s <;> rfl

/-- C4 (amended) witness: a concrete iteration that receives an envelope
into an empty buffer and sends it successfully. -/
theorem fetch_message_iteration_spec_witness :
    (fetch_message_iteration (.recvOk ⟨.Init, .obj []⟩) .sent []).offered =
      some ⟨.Init, .obj []⟩ ∧
    (fetch_message_iteration (.recvOk ⟨.Init, .obj []⟩) .sent []).msg_buffer = [] ∧
    (∀ (r : RecvOutcome) (s : SendOutcome)
        (b : List DeserializableCoreInstr),
      (fetch_message_iteration r s b).control = .next) := by
  have h := fetch_message_iteration_spec (.recvOk ⟨.Init, .obj []⟩) .sent []
    ⟨.Init, .obj []⟩ [] rfl
  exact ⟨h.1, h.2.1, h.2.2⟩

/-- Observable outcome of `run_plugin`
(src/polychat_plugin_sdk_rust/entrypoint.rs): the function either panics,
or connects with a socket id and sends its first envelope.  A connection
failure also panics; connection success is a parameter of the model. -/
inductive PluginRunOutcome where
  | panicked : String → PluginRunOutcome
  | sentFirst : String → SerializableCoreInstr InitDataInstruction → PluginRunOutcome

/-- The hard-coded example Init payload built by `run_plugin`. -/
def examplePluginInit : SerializableCoreInstr InitDataInstruction :=
  ⟨.Init,
   ⟨⟨⟨0, by decide⟩, ⟨1, by decide⟩, ⟨0, by decide⟩⟩,
    ⟨⟨0, by decide⟩, ⟨1, by decide⟩, ⟨0, by decide⟩⟩,
    ⟨"example_protocol", []⟩⟩⟩

/-- src/polychat_plugin_sdk_rust/entrypoint.rs, `run_plugin`: collects
`env::args()` (whose first element is always the program path), panics
unless there is exactly **one** element, takes `args[0]` — the program
path — as the socket id, connects, and sends the hard-coded Init
envelope; a connection error panics. -/
def run_plugin (args : List String) (connectOk : Bool) : PluginRunOutcome :=
  if args.length ≠ 1 then
    .panicked ("Incorrect number of args while running plugin. Got " ++
      toString args.length ++ ", expected 1.")
  else
    let socket_id := args.headD ""
    if connectOk then .sentFirst socket_id examplePluginInit
    else .panicked "Error while opening IPC connection."

/-- src/process_management/process.rs, `Process::new`: the child is
spawned with `Command::new(&path).arg(socket_name_arg)`, i.e. with
argv `[path, socket_name]`. -/
def process_spawn_argv (path socket_name : String) : List String :=
  [path, socket_name]

/-- C5: evaluating `run_plugin` at the argv the host itself passes
(`Process::new` spawns `<path> <endpoint_name>`, argv length 2) shows the
entrypoint panics instead of reading the endpoint name and connecting:
its arity check demands `args.len() == 1` and it reads `args[0]`, the
program path, as the socket id. -/
theorem run_plugin_panics_on_contract_argv :
    run_plugin (process_spawn_argv "/plugins/example/plugin" "abc1234") true =
      .panicked "Incorrect number of args while running plugin. Got 2, expected 1." ∧
    run_plugin ["/plugins/example/plugin"] true =
      .sentFirst "/plugins/example/plugin" examplePluginInit := by
  constructor <;> rfl

/-- Error kinds of the plugin manager
(src/plugin_management/error.rs `PluginManagerError` /
src/process_management/error.rs `ProcessManagerError`). -/
inductive ProcessManagerError where
  | RelativePath : String → ProcessManagerError
  | NonExistent : String → ProcessManagerError
  | NonDirectory : String → ProcessManagerError
  | NoPath : ProcessManagerError
deriving DecidableEq, Repr

/-- A filesystem path together with the three attributes `check_directory`
queries on it (`is_absolute`, `exists`, `is_dir`). -/
structure PathBuf where
  path : String
  absolute : Bool
  existsOnDisk : Bool
  directory : Bool
deriving DecidableEq, Repr

/-- src/process_management/process_manager.rs, `check_directory`: reject a
relative path, then a non-existent path, then a non-directory, in that
order. -/
def check_directory (dir : PathBuf) : Except ProcessManagerError Unit :=
  if !dir.absolute then .error (.RelativePath dir.path)
  else if !dir.existsOnDisk then .error (.NonExistent dir.path)
  else if !dir.directory then .error (.NonDirectory dir.path)
  else .ok ()

/-- A loaded child wrapper (src/process_management/process.rs `Process`);
only its executable path is observable in this model. -/
structure Process where
  process_path : String
deriving DecidableEq, Repr

/-- src/process_management/process_manager.rs, `ProcessManager`: the
optional plugin directory and the loaded child wrappers (the shared queue
ends are not needed by the claims about manager state). -/
structure ProcessManager where
  dir : Option PathBuf
  loaded_processes : List Process
deriving DecidableEq, Repr

/-- src/process_management/process_manager.rs, `ProcessManager::new`. -/
def ProcessManager.new : ProcessManager :=
  ⟨none, []⟩

/-- src/process_management/process_manager.rs, `from_dir_path`: validate
the directory with `check_directory`, then bind a fresh (not-yet-loaded)
manager to it.  No directory walk and no child spawn occurs here — the
function only validates and constructs. -/
def from_dir_path (dir : PathBuf) : Except ProcessManagerError ProcessManager :=
  match check_directory dir with
  | .error e => .error e
  | .ok () => .ok { ProcessManager.new with dir := some dir }

/-- src/process_management/process_manager.rs, `from_dir_str`:
`PathBuf::from_str` is infallible, so this is `from_dir_path` on the
parsed path. -/
def from_dir_str (path : PathBuf) : Except ProcessManagerError ProcessManager :=
  from_dir_path path

/-- One entry yielded by the depth-2 `WalkDir` iteration of the plugin
directory after the `expected_file` filter: either a per-entry walk error
(logged and skipped) or the path of a candidate executable. -/
inductive WalkEntry where
  | err : String → WalkEntry
  | file : String → WalkEntry

/-- Environment of one load pass: the entries the directory walk yields,
and the outcome of bringing up a child for a path
(`IPCServer::new` on a fresh random endpoint name followed by
`Process::new`, i.e. socket bind plus OS spawn, abstracted). -/
structure LoadEnv where
  walk : List WalkEntry
  construct : String → Except String Process

/-- src/process_management/process_manager.rs, `load_process`: bring up
one child; on success push the wrapper onto `loaded_processes`, on failure
return the error with the manager unchanged. -/
def load_process (env : LoadEnv) (mgr : ProcessManager) (path : String) :
    ProcessManager × Except String Unit :=
  match env.construct path with
  | .ok p => ({ mgr with loaded_processes := mgr.loaded_processes ++ [p] }, .ok ())
  | .error e => (mgr, .error e)

/-- The `for` loop of `load_processes` over the walk entries: entry errors
are logged and skipped; a failed child bring-up returns the error
immediately, keeping every wrapper pushed so far.  The third component
traces the paths handed to child bring-up (each is a spawn attempt). -/
def load_processes_go (env : LoadEnv) (mgr : ProcessManager) :
    List WalkEntry → ProcessManager × Except String Unit × List String
  | [] => (mgr, .ok (), [])
  | .err _ :: rest => load_processes_go env mgr rest
  | .file p :: rest =>
      match load_process env mgr p with
      | (mgr1, .ok ()) =>
          let r := load_processes_go env mgr1 rest
          (r.1, r.2.1, p :: r.2.2)
      | (mgr1, .error e) => (mgr1, .error e, [p])

/-- Errors surfaced by `load_processes`: a manager/path error or a child
bring-up error (the source mixes both through `anyhow`). -/
inductive LoadError where
  | mgrErr : ProcessManagerError → LoadError
  | procErr : String → LoadError
deriving DecidableEq, Repr

/-- src/process_management/process_manager.rs, `load_processes`: `NoPath`
when no directory is bound, then `check_directory` on the bound directory
— both failures return before the walk starts — then the walk loop.  The
`Started`/`Finished` observer callbacks bracket the pass and carry no
state, so they are not modelled. -/
def load_processes (env : LoadEnv) (mgr : ProcessManager) :
    ProcessManager × Except LoadError Unit × List String :=
  match mgr.dir with
  | none => (mgr, .error (.mgrErr .NoPath), [])
  | some d =>
      match check_directory d with
      | .error e => (mgr, .error (.mgrErr e), [])
      | .ok () =>
          let r := load_processes_go env mgr env.walk
          (r.1,
           (match r.2.1 with
            | .ok () => .ok ()
            | .error e => .error (.procErr e)),
           r.2.2)

/-- C6: constructing a manager from a relative path fails with
`RelativePath`, from an absolute non-existent path with `NonExistent`,
and from an existing non-directory with `NonDirectory`; `from_dir_str`
is `from_dir_path` after the infallible path parse; and on any validation
failure a load pass returns the same error kind having walked nothing and
spawned nothing (empty spawn trace, manager unchanged). -/
theorem directory_validation (p : PathBuf) (env : LoadEnv) (mgr : ProcessManager) :
    (p.absolute = false → from_dir_path p = .error (.RelativePath p.path)) ∧
    (p.absolute = true → p.existsOnDisk = false →
      from_dir_path p = .error (.NonExistent p.path)) ∧
    (p.absolute = true → p.existsOnDisk = true → p.directory = false →
      from_dir_path p = .error (.NonDirectory p.path)) ∧
    from_dir_str p = from_dir_path p ∧
    (∀ e, check_directory p = .error e → mgr.dir = some p →
      load_processes env mgr = (mgr, .error (.mgrErr e), [])) := by
  refine ⟨?_, ?_, ?_, rfl, ?_⟩
  · intro h
    simp [from_dir_path, check_directory, h]
  · intro h1 h2
    simp [from_dir_path, check_directory, h1, h2]
  · intro h1 h2 h3
    simp [from_dir_path, check_directory, h1, h2, h3]
  · intro e he hd
    simp [load_processes, hd, he]

/-- C6 witness: the three concrete failures of the spec's test scenarios
(`./plugins` relative, an absent absolute path, `/etc/passwd` a regular
file), and the load pass on the relative path spawning nothing. -/
theorem directory_validation_witness :
    from_dir_path ⟨"./plugins", false, false, false⟩ =
      .error (.RelativePath "./plugins") ∧
    from_dir_path ⟨"/nonexistent", true, false, false⟩ =
      .error (.NonExistent "/nonexistent") ∧
    from_dir_path ⟨"/etc/passwd", true, true, false⟩ =
      .error (.NonDirectory "/etc/passwd") ∧
    load_processes ⟨[], fun p => .ok ⟨p⟩⟩
        ⟨some ⟨"./plugins", false, false, false⟩, []⟩ =
      (⟨some ⟨"./plugins", false, false, false⟩, []⟩,
       .error (.mgrErr (.RelativePath "./plugins")), []) := by
  refine ⟨?_, ?_, ?_, ?_⟩
  · exact (directory_validation ⟨"./plugins", false, false, false⟩
      ⟨[], fun p => .ok ⟨p⟩⟩ ProcessManager.new).1 rfl
  · exact (directory_validation ⟨"/nonexistent", true, false, false⟩
      ⟨[], fun p => .ok ⟨p⟩⟩ ProcessManager.new).2.1 rfl rfl
  · exact (directory_validation ⟨"/etc/passwd", true, true, false⟩
      ⟨[], fun p => .ok ⟨p⟩⟩ ProcessManager.new).2.2.1 rfl rfl rfl
  · exact (directory_validation ⟨"./plugins", false, false, false⟩
      ⟨[], fun p => .ok ⟨p⟩⟩
      ⟨some ⟨"./plugins", false, false, false⟩, []⟩).2.2.2.2
      (.RelativePath "./plugins") rfl rfl

/-- The child wrappers successfully constructed before the first failing
bring-up of a load pass (walk-entry errors are skipped; the list stops at
the first construction failure). -/
def builtBefore (env : LoadEnv) : List WalkEntry → List Process
  | [] => []
  | .err _ :: rest => builtBefore env rest
  | .file p :: rest =>
      match env.construct p with
      | .ok proc => proc :: builtBefore env rest
      | .error _ => []

/-- The error of the first failing child bring-up of a load pass, if
any. -/
def firstConstructError (env : LoadEnv) : List WalkEntry → Option String
  | [] => none
  | .err _ :: rest => firstConstructError env rest
  | .file p :: rest =>
      match env.construct p with
      | .ok _ => firstConstructError env rest
      | .error e => some e

/-- Helper: the load loop appends exactly the wrappers built before the
first failure and reports that failure's error; nothing is rolled back. -/
theorem load_processes_go_spec (env : LoadEnv) (mgr : ProcessManager)
    (entries : List WalkEntry) :
    ((load_processes_go env mgr entries).1).loaded_processes =
      mgr.loaded_processes ++ builtBefore env entries ∧
    (load_processes_go env mgr entries).2.1 =
      (match firstConstructError env entries with
       | some e => .error e
       | none => .ok ()) := by
  induction entries generalizing mgr with
  | nil => simp [load_processes_go, builtBefore, firstConstructError]
  | cons entry rest ih =>
      cases entry with
      | err m => simpa [load_processes_go, builtBefore, firstConstructError] using ih mgr
      | file p =>
          cases hc : env.construct p with
          | ok proc =>
              have h := ih { mgr with loaded_processes := mgr.loaded_processes ++ [proc] }
              simp only [load_processes_go, load_process, hc, builtBefore,
                firstConstructError] at h ⊢
              exact ⟨by rw [h.1]; simp, h.2⟩
          | error e =>
              simp [load_processes_go, load_process, hc, builtBefore, firstConstructError]

/-- C10: `load_processes` is not atomic in the manager's state — when the
pass aborts because a child bring-up fails, every wrapper constructed
before the failure stays stored in `loaded_processes` (the list is
appended to per successful child and never rolled back), and the reported
error is the first bring-up failure. -/
theorem load_processes_not_atomic (env : LoadEnv) (mgr : ProcessManager)
    (d : PathBuf) (hd : mgr.dir = some d) (hc : check_directory d = .ok ()) :
    ((load_processes env mgr).1).loaded_processes =
      mgr.loaded_processes ++ builtBefore env env.walk ∧
    (load_processes env mgr).2.1 =
      (match firstConstructError env env.walk with
       | some e => .error (.procErr e)
       | none => .ok ()) := by
  have h := load_processes_go_spec env mgr env.walk
  simp only [load_processes, hd, hc]
  refine ⟨h.1, ?_⟩
  rw [h.2]
  cases firstConstructError env env.walk <;> rfl

/-- C10 witness: two discovered executables, the second one failing to
spawn; after the aborted pass the first wrapper remains stored and the
error is the second child's spawn failure. -/
theorem load_processes_not_atomic_witness :
    ((load_processes
        ⟨[.file "/plugins/a/a", .file "/plugins/b/b"],
         fun p => if p = "/plugins/a/a" then .ok ⟨p⟩ else .error "spawn failed"⟩
        ⟨some ⟨"/plugins", true, true, true⟩, []⟩).1).loaded_processes =
      [⟨"/plugins/a/a"⟩] ∧
    (load_processes
        ⟨[.file "/plugins/a/a", .file "/plugins/b/b"],
         fun p => if p = "/plugins/a/a" then .ok ⟨p⟩ else .error "spawn failed"⟩
        ⟨some ⟨"/plugins", true, true, true⟩, []⟩).2.1 =
      .error (.procErr "spawn failed") := by
  have h := load_processes_not_atomic
    ⟨[.file "/plugins/a/a", .file "/plugins/b/b"],
     fun p => if p = "/plugins/a/a" then .ok ⟨p⟩ else .error "spawn failed"⟩
    ⟨some ⟨"/plugins", true, true, true⟩, []⟩
    ⟨"/plugins", true, true, true⟩ rfl rfl
  exact ⟨by rw [h.1]; rfl, by rw [h.2]; rfl⟩

/-- The 62 characters `rand::distributions::Alphanumeric` samples from. -/
def alphanumericChars : List Char :=
  "ABCDEFGHIJKLMNOPQRSTUVWXYZabcdefghijklmnopqrstuvwxyz0123456789".data

/-- One draw from the `Alphanumeric` distribution, indexed by the RNG. -/
def sampleAlphanumeric (r : Fin 62) : Char :=
  alphanumericChars.getD r.val 'A'

/-- src/process_management/process_manager.rs, `generate_random_ipc_id`:
`thread_rng().sample_iter(&Alphanumeric).take(7).map(char::from).collect()`
— seven draws from the alphanumeric distribution collected into a string.
The RNG is modelled as the stream of its draws. -/
def generate_random_ipc_id (rng : Nat → Fin 62) : String :=
  String.mk ((List.range 7).map (fun i => sampleAlphanumeric (rng i)))

/-- The answers `interprocess::local_socket::NameTypeSupport::query()` can
give for the platform's local-socket namespace support. -/
inductive NameTypeSupport where
  | OnlyPaths : NameTypeSupport
  | OnlyNamespaced : NameTypeSupport
  | Both : NameTypeSupport
deriving DecidableEq, Repr

/-- src/utils/socket.rs, `get_socket_name`: `/tmp/<name>.sock` when the
platform supports filesystem paths (`OnlyPaths` or `Both`), and
`@<name>.sock` when it supports only the abstract namespace. -/
def get_socket_name (support : NameTypeSupport) (name : String) : String :=
  match support with
  | .OnlyPaths | .Both => "/tmp/" ++ name ++ ".sock"
  | .OnlyNamespaced => "@" ++ name ++ ".sock"

/-- C7: `generate_random_ipc_id` always yields exactly 7 alphanumeric
ASCII characters, and for every logical name the socket-name resolution is
a function assigning exactly one platform name: `/tmp/<N>.sock` under
`OnlyPaths` or `Both`, and `@<N>.sock` under `OnlyNamespaced`. -/
theorem endpoint_naming (rng : Nat → Fin 62) (name : String) :
    (generate_random_ipc_id rng).length = 7 ∧
    (∀ c ∈ (generate_random_ipc_id rng).data, c.isAlphanum = true) ∧
    get_socket_name .OnlyPaths name = "/tmp/" ++ name ++ ".sock" ∧
    get_socket_name .Both name = "/tmp/" ++ name ++ ".sock" ∧
    get_socket_name .OnlyNamespaced name = "@" ++ name ++ ".sock" := by
  refine ⟨?_, ?_, rfl, rfl, rfl⟩
  · rfl
  · intro c hc
    simp only [generate_random_ipc_id, String.mk, List.mem_map] at hc
    obtain ⟨i, _, rfl⟩ := hc
    have : ∀ r : Fin 62, (sampleAlphanumeric r).isAlphanum = true := by decide
    exact this (rng i)

/-- C7 witness: the all-zero RNG gives the 7-character id `"AAAAAAA"`,
`'A'` is alphanumeric, and the name `abc1234` resolves as specified. -/
theorem endpoint_naming_witness :
    (generate_random_ipc_id (fun _ => ⟨0, by norm_num⟩)).length = 7 ∧
    Char.isAlphanum 'A' = true ∧
    get_socket_name .OnlyPaths "abc1234" = "/tmp/abc1234.sock" ∧
    get_socket_name .OnlyNamespaced "abc1234" = "@abc1234.sock" := by
  have h := endpoint_naming (fun _ => ⟨0, by norm_num⟩) "abc1234"
  refine ⟨h.1, ?_, h.2.2.1, h.2.2.2.2⟩
  exact h.2.1 'A' (by decide)

/-- Result of `child.try_wait()` inside `Drop for Process`. -/
inductive ChildStatus where
  | exitedEarly : Int → ChildStatus
  | running : ChildStatus
  | checkFailed : String → ChildStatus

/-- The observable teardown steps of `Drop for Process`, in order. -/
inductive DropAction where
  | abortReader : DropAction
  | killChild : DropAction
  | waitChild : DropAction
deriving DecidableEq, Repr

/-- src/process_management/process.rs, `impl Drop for Process`: first
`self.core_read_thread.abort()`; then `try_wait` — if the child already
exited (`Ok(Some(_))`) or the status check errored (`Err(_)`), log and
return without killing; otherwise `kill()` (on error, log and return)
followed by `wait()`. -/
def process_drop (status : ChildStatus) (killOk : Bool) : List DropAction :=
  .abortReader ::
    (match status with
     | .exitedEarly _ => []
     | .checkFailed _ => []
     | .running => .killChild :: (if killOk then [.waitChild] else []))

/-- C8: dropping a `Process` always aborts the reader task first; if the
child has already exited or the status check errors, no kill is issued;
otherwise the kill is issued after the abort and, when the kill succeeds,
the child is then waited on — in particular the reader abort precedes any
kill signal. -/
theorem process_drop_order (status : ChildStatus) (killOk : Bool) :
    (process_drop status killOk).head? = some .abortReader ∧
    ((match status with | .running => False | _ => True) →
      process_drop status killOk = [.abortReader]) ∧
    (status = .running →
      process_drop status killOk =
        .abortReader :: .killChild :: (if killOk then [.waitChild] else [])) := by
  refine ⟨rfl, ?_, ?_⟩
  · intro h
    cases status with
    | exitedEarly s => rfl
    | checkFailed e => rfl
    | running => exact absurd h (by simp)
  · intro h
    subst h
    rfl

/-- C8 witness: a still-running child with a successful kill gives the
trace abort-kill-wait; an already-exited child gives abort only. -/
theorem process_drop_order_witness :
    process_drop .running true = [.abortReader, .killChild, .waitChild] ∧
    process_drop (.exitedEarly 0) true = [.abortReader] := by
  constructor
  · have h := (process_drop_order .running true).2.2 rfl
    simpa using h
  · exact (process_drop_order (.exitedEarly 0) true).2.1 trivial

/-- C9: the derived envelope equalities return `false` whenever the JSON
serialization of either operand's payload fails — even when both operands
are the very same envelope; hence for a payload whose serialization
errors, no envelope is equal to itself and the relation is not
reflexive. -/
theorem envelope_eq_not_reflexive :
    (∀ (P : Type) (ser : P → Except String Json) (a : SerializableCoreInstr P)
        (e : String), ser a.payload = .error e →
      serializableCoreInstrEq ser a a = false) ∧
    (∀ (P : Type) (ser : P → Except String Json) (b : SerializablePluginInstr P)
        (e : String), ser b.payload = .error e →
      serializablePluginInstrEq ser b b = false) := by
  constructor
  · intro P ser a e h
    simp [serializableCoreInstrEq, serToStr, h]
  · intro P ser b e h
    simp [serializablePluginInstrEq, serToStr, h]

/-- C9 witness: a payload type whose serialization always fails (as
serde_json does for a map with non-string keys); the envelope is not
equal to itself. -/
theorem envelope_eq_not_reflexive_witness :
    serializableCoreInstrEq (fun _ : Unit => .error "key must be a string")
      ⟨.Init, ()⟩ ⟨.Init, ()⟩ = false ∧
    serializablePluginInstrEq (fun _ : Unit => .error "key must be a string")
      ⟨.Keepalive, ()⟩ ⟨.Keepalive, ()⟩ = false := by
  constructor
  · exact envelope_eq_not_reflexive.1 Unit
      (fun _ => .error "key must be a string") ⟨.Init, ()⟩
      "key must be a string" rfl
  · exact envelope_eq_not_reflexive.2 Unit
      (fun _ => .error "key must be a string") ⟨.Keepalive, ()⟩
      "key must be a string" rfl
